import Mathlib

/-!
Verification of the software texture-sampling oracle of the WebGPU CTS
repository. The relevant source is the texture-builtin test utility module
(`src/unnamed/part_008`): the software rasterizer `softwareTextureReadMipLevel`,
the calibration validator `validateWeights`, the gradient mip-level derivation
`computeMipLevelFromGradients`, the out-of-bounds acceptance policy
(`isOutOfBoundsCall` / `isValidOutOfBoundsValue` / `okBecauseOutOfBounds`),
the tolerance machinery (`texelsApproximatelyEqual`,
`getMaxFractionalDiffForTextureFormat`, the per-call threshold of
`checkCallResults`), the addressing engine `applyAddressModesToCoords`, and the
cube-corner detector `getUnusedCubeCornerSampleIndex`.

JavaScript `number` values are embedded as rationals (`ℚ`); `Math.log2` is the
real base-2 logarithm. Helper functions imported by the module from utility
files that are not part of the source tree (`clamp`, `dotProduct` from
`common/util/math.js`) are modelled from the spec, as noted on their doc
comments. Texture data, the cube-face wrap, and the per-format bit encodings
are consumed by the oracle through function-valued inputs; the embedding keeps
them as function parameters, so every theorem quantifies over all of their
possible behaviours.
-/

namespace CTS

/-- Texel component tags (`TexelComponent` of the texel utilities). -/
inductive TexelComponent
  | R
  | G
  | B
  | A
  | Depth
  | Stencil
deriving DecidableEq, Repr

/-- A per-texel component record, as a total assignment of a numeric value to
every component tag. The JavaScript `PerTexelComponent<number>` record only
carries the keys of the relevant component order; the oracle only ever reads
those keys, so the extra values of the total function are never observed. -/
abbrev Texel : Type := TexelComponent → ℚ

/-- `GPUAddressMode`. -/
inductive GPUAddressMode
  | clampToEdge
  | repeatMode
  | mirrorRepeat
deriving DecidableEq, Repr

/-- `GPUCompareFunction`. -/
inductive GPUCompareFunction
  | never
  | less
  | equal
  | lessEqual
  | greater
  | notEqual
  | greaterEqual
  | always
deriving DecidableEq, Repr

/-- The WGSL texture builtins handled by the oracle (`TextureBuiltin`). -/
inductive TextureBuiltin
  | textureGather
  | textureGatherCompare
  | textureSample
  | textureSampleBaseClampToEdge
  | textureSampleBias
  | textureSampleCompare
  | textureSampleCompareLevel
  | textureSampleGrad
  | textureSampleLevel
  | textureLoad
deriving DecidableEq, Repr

/-- `GPUFilterMode` (only the values the oracle distinguishes). -/
inductive FilterMode
  | nearest
  | linear
deriving DecidableEq, Repr

/-- `isBuiltinComparison` from the source: the three compare builtins. -/
def isBuiltinComparison : TextureBuiltin → Bool
  | .textureGatherCompare | .textureSampleCompare | .textureSampleCompareLevel => true
  | _ => false

/-- `isBuiltinGather` from the source. -/
def isBuiltinGather : TextureBuiltin → Bool
  | .textureGather | .textureGatherCompare => true
  | _ => false

/-- Modelled from the spec: `clamp` from `common/util/math.js` (imported by the
oracle module but not under `src/`): `Math.min(max, Math.max(min, v))`. -/
def clamp (v lo hi : ℚ) : ℚ := min hi (max lo v)

/-- `Math.round` (round half toward positive infinity). -/
def jsRound (v : ℚ) : ℤ := ⌊v + 1/2⌋

/-! ### Calibration validation (`validateWeights`, claim C2) -/

/-- `kMipLevelWeightSteps = 64`: the calibration curve has 65 entries. -/
def kMipLevelWeightSteps : ℕ := 64

/-- `validateWeights` from the source, as the predicate "does not throw".
The function asserts `weights[0] === 0`, `weights[kMipLevelWeightSteps] === 1`
and that the number of distinct values (`new Set(weights).size`) is at least
`(weights.length * 25 * 0.01) | 0` (truncating conversion; for the 65-entry
arrays produced by calibration this is `⌊16.25⌋ = 16`, matched here by natural
division). It performs no other check. -/
def validateWeights (weights : List ℚ) : Bool :=
  decide (weights.get? 0 = some 0) &&
  decide (weights.get? kMipLevelWeightSteps = some 1) &&
  decide (weights.dedup.length ≥ weights.length * 25 / 100)

/-! ### Bias clamping (`softwareTextureReadGrad`, claim C3) -/

/-- The first line of `softwareTextureReadGrad`:
`call.bias === undefined ? 0 : clamp(call.bias, { min: -16.0, max: 15.99 })`. -/
def effectiveBias : Option ℚ → ℚ
  | none => 0
  | some b => clamp b (-16) (1599/100)

/-- The mip level `softwareTextureReadGrad` hands on after applying the bias:
on the gradient path the derived level plus the effective bias, clamped to
`[0, mipLevelCount - 1]` (and then fed through the device calibration map);
otherwise `(call.mipLevel ?? 0) + bias`. -/
def softwareTextureReadGradLevelArg (hasGrad : Bool) (gradMipLevel : ℚ)
    (callMipLevel : Option ℚ) (bias : Option ℚ) (mipLevelCount : ℚ) : ℚ :=
  if hasGrad then clamp (gradMipLevel + effectiveBias bias) 0 (mipLevelCount - 1)
  else callMipLevel.getD 0 + effectiveBias bias

/-! ### Gradient-based mip level (`computeMipLevelFromGradients`, claim C4) -/

/-- Modelled from the spec: `dotProduct` from `common/util/math.js` (not under
`src/`): the sum of the componentwise products. -/
def dotProduct (a b : List ℚ) : ℚ := (List.zipWith (fun x y => x * y) a b).sum

/-- `ddx.map((v, i) => v * textureSize[i])` from `computeMipLevelFromGradients`. -/
def scaleByTextureSize (g textureSize : List ℚ) : List ℚ :=
  List.zipWith (fun v s => v * s) g textureSize

/-- The argument of `Math.log2` in `computeMipLevelFromGradients`:
`max(dot(scaledDdx, scaledDdx), dot(scaledDdy, scaledDdy))`. -/
def computeMipLevelDeltaMax (ddx ddy textureSize : List ℚ) : ℚ :=
  let scaledDdx := scaleByTextureSize ddx textureSize
  let scaledDdy := scaleByTextureSize ddy textureSize
  max (dotProduct scaledDdx scaledDdx) (dotProduct scaledDdy scaledDdy)

/-- `computeMipLevelFromGradients` from the source:
`0.5 * Math.log2(deltaMax)`. -/
noncomputable def computeMipLevelFromGradients (ddx ddy textureSize : List ℚ) : ℝ :=
  (1/2 : ℝ) * Real.logb 2 (computeMipLevelDeltaMax ddx ddy textureSize)

/-! ### Addressing engine (`applyAddressModesToCoords`, claim C9) -/

/-- One arm of the `switch` in `applyAddressModesToCoords`, for a single axis. -/
def applyAddressModeToCoord (mode : GPUAddressMode) (size v : ℚ) : ℚ :=
  match mode with
  | .clampToEdge => clamp v 0 (size - 1)
  | .mirrorRepeat =>
    let n : ℤ := ⌊v / size⌋
    let r := v - n * size
    if n % 2 ≠ 0 then size - r - 1 else r
  | .repeatMode => v - ⌊v / size⌋ * size

/-- `applyAddressModesToCoords` from the source: maps each coordinate through
the address mode of its axis (`coord.map((v, i) => ...)` indexing
`addressMode[i]` and `mipLevelSize[i]`). -/
def applyAddressModesToCoords :
    List GPUAddressMode → List ℚ → List ℚ → List ℚ
  | m :: ms, s :: ss, v :: vs =>
    applyAddressModeToCoord m s v :: applyAddressModesToCoords ms ss vs
  | _, _, _ => []

/-! ### Format tolerances and texel comparison (claims C6, C10) -/

/-- Helper for JavaScript `String.prototype.includes`: does `sub` occur at the
start of `s`? -/
def startsWithList : List Char → List Char → Bool
  | _, [] => true
  | [], _ :: _ => false
  | c :: cs, d :: ds => c = d && startsWithList cs ds

/-- Helper for JavaScript `String.prototype.includes`: does `sub` occur
anywhere in `s`? -/
def containsList : List Char → List Char → Bool
  | [], sub => startsWithList [] sub
  | c :: cs, sub => startsWithList (c :: cs) sub || containsList cs sub

/-- JavaScript `format.includes(sub)`. -/
def stringIncludes (s sub : String) : Bool := containsList s.data sub.data

/-- JavaScript `format.endsWith(sub)`. -/
def stringEndsWith (s sub : String) : Bool :=
  startsWithList s.data.reverse sub.data.reverse

/-- `getMaxFractionalDiffForTextureFormat` from the source: the per-format
fractional tolerance, chosen by suffix matching on the format name. -/
def getMaxFractionalDiffForTextureFormat (format : String) : ℚ :=
  if stringIncludes format "depth" then 3/100
  else if stringIncludes format "8unorm" then 7/255
  else if stringIncludes format "2unorm" then 13/512
  else if stringIncludes format "unorm" then 7/255
  else if stringIncludes format "8snorm" then 79/1280
  else if stringIncludes format "snorm" then 79/1280
  else if stringEndsWith format "ufloat" then 156249/1000
  else if stringEndsWith format "float" then 44
  else 0

/-- The RGBA components checked by `texelsApproximatelyEqual`: only `R` when
the texture format is a depth or stencil format, all of RGBA otherwise. -/
def checkedComponents (gotFormatIsDepthOrStencil : Bool) : List TexelComponent :=
  if gotFormatIsDepthOrStencil then [TexelComponent.R]
  else [TexelComponent.R, TexelComponent.G, TexelComponent.B, TexelComponent.A]

/-- `texelsApproximatelyEqual` from the source. `ulpFromZeroRGBA` stands for
the per-format composition
`convertPerTexelComponentToResultFormat(rep.bitsToULPFromZero(rep.numberToBits(convertResultFormatToTexelViewFormat(·))))`
through which the source obtains the ULP-from-zero magnitudes `gULP`/`eULP`
from the format's own bit encoding; the encoding tables live outside the
module, so it is kept as a function parameter. The loop rejects as soon as a
checked component has `ulpDiff > 3` and `absDiff > maxFractionalDiff`, and
accepts otherwise. -/
def texelsApproximatelyEqual (ulpFromZeroRGBA : Texel → Texel)
    (gotFormatIsDepthOrStencil : Bool)
    (gotRGBA expectRGBA : Texel) (maxFractionalDiff : ℚ) : Bool :=
  let gULP := ulpFromZeroRGBA gotRGBA
  let eULP := ulpFromZeroRGBA expectRGBA
  (checkedComponents gotFormatIsDepthOrStencil).all fun c =>
    ! (decide (|gULP c - eULP c| > 3) && decide (|gotRGBA c - expectRGBA c| > maxFractionalDiff))

/-- The base tolerance of `checkCallResults`: the format tolerance when any of
the sampler's three filters is `linear`, and `0` otherwise. -/
def baseMaxFractionalDiff (minLinear magLinear mipLinear : Bool) (format : String) : ℚ :=
  if minLinear || magLinear || mipLinear then getMaxFractionalDiffForTextureFormat format
  else 0

/-- The per-call acceptance threshold of `checkCallResults`:
`call.bias! >= 12 ? maxFractionalDiff * (2 + call.bias! - 12) : maxFractionalDiff`
(an absent bias compares as not `>= 12`). -/
def callSpecificMaxFractionalDiff (bias : Option ℚ) (maxFractionalDiff : ℚ) : ℚ :=
  match bias with
  | some b => if b ≥ 12 then maxFractionalDiff * (2 + b - 12) else maxFractionalDiff
  | none => maxFractionalDiff

/-! ### Out-of-bounds policy (claim C5) -/

/-- The arguments of a `textureLoad`-style call that `isOutOfBoundsCall`
inspects. -/
structure OobCall where
  coords : List ℚ
  mipLevel : Option ℚ
  arrayIndex : Option ℚ
  sampleIndex : Option ℚ

/-- The shared shape of the optional-argument range checks of
`isOutOfBoundsCall`: an absent argument is in bounds, a present one is out of
bounds below `0` or at or above its limit. -/
def oobRangeCheck (o : Option ℚ) (limit : ℚ) : Bool :=
  match o with
  | some v => decide (v < 0) || decide (v ≥ limit)
  | none => false

/-- `isOutOfBoundsCall` from the source: the call is out of bounds when the
mip level (against `mipLevelCount`), any coordinate (against the level size),
the array index (against `arrayLayerCount`), or the sample index (against
`sampleCount`) falls outside its half-open range. `sizeList` is the virtual
size of the mip level addressed by the call
(`virtualMipSize(dimension, baseMipLevelSize, callMipLevel ?? 0)` in the
source; the size helper lives outside the module, so the level size is taken
as an input). -/
def isOutOfBoundsCall (mipLevelCount : ℚ) (sizeList : List ℚ)
    (arrayLayerCount sampleCount : ℚ) (call : OobCall) : Bool :=
  oobRangeCheck call.mipLevel mipLevelCount ||
  (List.zip call.coords sizeList).any
    (fun p => decide (p.1 < 0) || decide (p.1 ≥ p.2)) ||
  oobRangeCheck call.arrayIndex arrayLayerCount ||
  oobRangeCheck call.sampleIndex sampleCount

/-- One mip level of a software texture: its virtual size and its texel data
(`TexelView.color`, a pure function of `x, y, z, sampleIndex`). -/
structure MipLevelTexels where
  sizeX : ℕ
  sizeY : ℕ
  sizeZ : ℕ
  color : ℕ → ℕ → ℕ → ℕ → Texel

/-- Replaces one component of a texel record. -/
def setComponent (t : Texel) (c : TexelComponent) (v : ℚ) : Texel :=
  fun c2 => if c2 = c then v else t c2

/-- `convertPerTexelComponentToResultFormat` from the source: starting from
`{R: 0, G: 0, B: 0, A: 1}`, copy each component of the format's component
order across, with `Depth` and `Stencil` landing in `R`. -/
def convertPerTexelComponentToResultFormat
    (componentOrder : List TexelComponent) (src : Texel) : Texel :=
  componentOrder.foldl
    (fun out component =>
      match component with
      | .Stencil => setComponent out .R (src component)
      | .Depth => setComponent out .R (src component)
      | c => setComponent out c (src c))
    (fun c => match c with
      | .A => 1
      | _ => 0)

/-- The data of a `SoftwareTexture` that the out-of-bounds policy reads: the
mip chain with per-level sizes, the format predicates, the sample count
(`descriptor.sampleCount ?? 1`), the format's component order, and the
format's ULP encoding (see `texelsApproximatelyEqual`). -/
structure SoftwareTextureModel where
  texels : List MipLevelTexels
  formatIsDepth : Bool
  formatIsDepthOrStencil : Bool
  sampleCount : ℕ
  componentOrder : List TexelComponent
  ulpFromZeroRGBA : Texel → Texel

/-- `isValidOutOfBoundsValue` from the source: accept the all-zero sentinel
(`R = 0` for depth formats; `R = G = B = 0` with `A ∈ {0, 1}` otherwise), or
any texel of any mip level (every `x`, `y`, `z`, `sampleIndex`), compared
through `texelsApproximatelyEqual` after conversion to the result format. -/
def isValidOutOfBoundsValue (tex : SoftwareTextureModel)
    (gotRGBA : Texel) (maxFractionalDiff : ℚ) : Bool :=
  (if tex.formatIsDepth then decide (gotRGBA .R = 0)
   else decide (gotRGBA .R = 0) && decide (gotRGBA .B = 0) && decide (gotRGBA .G = 0)
        && (decide (gotRGBA .A = 0) || decide (gotRGBA .A = 1)))
  || tex.texels.any fun mip =>
      (List.range mip.sizeZ).any fun z =>
        (List.range mip.sizeY).any fun y =>
          (List.range mip.sizeX).any fun x =>
            (List.range tex.sampleCount).any fun sampleIndex =>
              texelsApproximatelyEqual tex.ulpFromZeroRGBA tex.formatIsDepthOrStencil
                gotRGBA
                (convertPerTexelComponentToResultFormat tex.componentOrder
                  (mip.color x y z sampleIndex))
                maxFractionalDiff

/-- `okBecauseOutOfBounds` from the source: reject in-bounds calls outright,
otherwise defer to `isValidOutOfBoundsValue`. -/
def okBecauseOutOfBounds (mipLevelCount : ℚ) (sizeList : List ℚ)
    (arrayLayerCount sampleCount : ℚ) (tex : SoftwareTextureModel) (call : OobCall)
    (gotRGBA : Texel) (maxFractionalDiff : ℚ) : Bool :=
  if ! isOutOfBoundsCall mipLevelCount sizeList arrayLayerCount sampleCount call then false
  else isValidOutOfBoundsValue tex gotRGBA maxFractionalDiff

/-! ### The software sampler (`softwareTextureReadMipLevel`, claims C1, C7, C8) -/

/-- `kSamplerFns` from the source: the eight `GPUCompareFunction` predicates,
applied as `fn(ref, v)`. -/
def kSamplerFns (f : GPUCompareFunction) (ref v : ℚ) : Bool :=
  match f with
  | .never => false
  | .less => decide (ref < v)
  | .equal => decide (ref = v)
  | .lessEqual => decide (ref ≤ v)
  | .greater => decide (ref > v)
  | .notEqual => decide (ref ≠ v)
  | .greaterEqual => decide (ref ≥ v)
  | .always => true

/-- `applyCompare` from the source: for a comparison builtin, replace every
component of the fetched record with `compareFn(depthRef, value) ? 1 : 0`;
otherwise pass the record through. The source writes only the components of
`componentOrder` into the output record, and downstream code reads only those
components, so the total function applies the rule to every tag. -/
def applyCompare (builtin : TextureBuiltin) (compare : GPUCompareFunction)
    (depthRef : ℚ) (src : Texel) : Texel :=
  if isBuiltinComparison builtin then
    fun c => if kSamplerFns compare depthRef (src c) then 1 else 0
  else src

/-- `kRGBAComponents`. -/
def kRGBAComponents : List TexelComponent :=
  [TexelComponent.R, TexelComponent.G, TexelComponent.B, TexelComponent.A]

/-- `getUnusedCubeCornerSampleIndex` from the source: given the (normalized,
already cube-converted) coordinate and the level's square size, report which
of the four bilinear texels is unused because the 2x2 footprint spills past a
face edge in both `u` and `v` (a cube corner), and `-1` when not at a corner. -/
def getUnusedCubeCornerSampleIndex (textureSize : ℚ) (coords : List ℚ) : ℤ :=
  let u := coords.getD 0 0 * textureSize
  let v := coords.getD 1 0 * textureSize
  if v < 1/2 then
    if u < 1/2 then 0
    else if u ≥ textureSize - 1/2 then 1
    else -1
  else if v ≥ textureSize - 1/2 then
    if u < 1/2 then 2
    else if u ≥ textureSize - 1/2 then 3
    else -1
  else -1

/-- The filter the sampled branch uses:
`isBuiltinGather(call.builtin) ? 'linear' : sampler?.minFilter ?? 'nearest'`. -/
def effectiveFilter (builtin : TextureBuiltin) (samplerMinFilter : Option FilterMode) :
    FilterMode :=
  if isBuiltinGather builtin then .linear else samplerMinFilter.getD .nearest

/-- The texel-space sample point `at` of the sampled branch:
`coords.map((v, i) => v * (isCube ? textureSizeForCube : mipLevelSize)[i] - 0.5)`,
with `textureSizeForCube = [mipLevelSize[0], mipLevelSize[1], 6]`, plus the
whole-texel offset when present. `coords` is the normalized coordinate after
the cube conversion of the source (line just above the sample construction). -/
def texelCoordsFromNormalized (isCube : Bool) (mipLevelSize : List ℕ)
    (coords : List ℚ) (offset : Option (List ℚ)) : List ℚ :=
  let sizes : List ℚ :=
    if isCube then [(mipLevelSize.getD 0 0 : ℚ), (mipLevelSize.getD 1 0 : ℚ), 6]
    else mipLevelSize.map (Nat.cast : ℕ → ℚ)
  let at0 := List.zipWith (fun v s => v * s - 1/2) coords sizes
  match offset with
  | some o => List.zipWith (fun a b => a + b) at0 o
  | none => at0

/-- The `'linear'` arm of the sample construction in
`softwareTextureReadMipLevel`: the corner texels `p0`/`p1` (`p1` does not
advance `z` for a cube view) and the per-axis weights `p1W = at - p0`,
`p0W = 1 - p1W`, pushed in the source's order for each dimensionality; at a
cube corner (unused-corner index non-negative) the source raises its
`unreachable('corners of cubemaps are not testable')` signal, embedded as
`none`. -/
def linearSampleList (isCube : Bool) (mipLevelSize0 : ℕ)
    (coords atc : List ℚ) : Option (List (List ℚ × ℚ)) :=
  let p0 : List ℚ := atc.map (fun v => (⌊v⌋ : ℚ))
  let p1 : List ℚ :=
    p0.mapIdx (fun i v => v + (if isCube then (if i = 2 then 0 else 1) else 1))
  let p1W : List ℚ := List.zipWith (fun v p => v - p) atc p0
  let p0W : List ℚ := p1W.map (fun v => 1 - v)
  match coords.length with
  | 1 => some [(p0, p0W.getD 0 0), (p1, p1W.getD 0 0)]
  | 2 => some [
      ([p0.getD 0 0, p1.getD 1 0], p0W.getD 0 0 * p1W.getD 1 0),
      (p1, p1W.getD 0 0 * p1W.getD 1 0),
      ([p1.getD 0 0, p0.getD 1 0], p1W.getD 0 0 * p0W.getD 1 0),
      (p0, p0W.getD 0 0 * p0W.getD 1 0)]
  | 3 =>
    if isCube then
      if getUnusedCubeCornerSampleIndex (mipLevelSize0 : ℚ) coords ≥ 0 then none
      else some [
        ([p0.getD 0 0, p1.getD 1 0, p0.getD 2 0], p0W.getD 0 0 * p1W.getD 1 0),
        (p1, p1W.getD 0 0 * p1W.getD 1 0),
        ([p1.getD 0 0, p0.getD 1 0, p0.getD 2 0], p1W.getD 0 0 * p0W.getD 1 0),
        (p0, p0W.getD 0 0 * p0W.getD 1 0)]
    else
      some [
        ([p0.getD 0 0, p0.getD 1 0, p0.getD 2 0],
          p0W.getD 0 0 * p0W.getD 1 0 * p0W.getD 2 0),
        ([p1.getD 0 0, p0.getD 1 0, p0.getD 2 0],
          p1W.getD 0 0 * p0W.getD 1 0 * p0W.getD 2 0),
        ([p0.getD 0 0, p1.getD 1 0, p0.getD 2 0],
          p0W.getD 0 0 * p1W.getD 1 0 * p0W.getD 2 0),
        ([p1.getD 0 0, p1.getD 1 0, p0.getD 2 0],
          p1W.getD 0 0 * p1W.getD 1 0 * p0W.getD 2 0),
        ([p0.getD 0 0, p0.getD 1 0, p1.getD 2 0],
          p0W.getD 0 0 * p0W.getD 1 0 * p1W.getD 2 0),
        ([p1.getD 0 0, p0.getD 1 0, p1.getD 2 0],
          p1W.getD 0 0 * p0W.getD 1 0 * p1W.getD 2 0),
        ([p0.getD 0 0, p1.getD 1 0, p1.getD 2 0],
          p0W.getD 0 0 * p1W.getD 1 0 * p1W.getD 2 0),
        ([p1.getD 0 0, p1.getD 1 0, p1.getD 2 0],
          p1W.getD 0 0 * p1W.getD 1 0 * p1W.getD 2 0)]
  | _ => some []

/-- The `'nearest'` arm of the sample construction: one sample of weight `1`
at `Math.round(quantizeToF32(v))` per axis. `quantizeToF32` (32-bit float
quantization, from the utility math library) is kept as a function input. -/
def nearestSampleList (quantizeToF32 : ℚ → ℚ) (atc : List ℚ) : List (List ℚ × ℚ) :=
  [(atc.map (fun v => (jsRound (quantizeToF32 v) : ℚ)), 1)]

/-- The full `samples` construction of the sampled branch of
`softwareTextureReadMipLevel`. -/
def sampleList (quantizeToF32 : ℚ → ℚ) (builtin : TextureBuiltin)
    (samplerMinFilter : Option FilterMode) (isCube : Bool) (mipLevelSize : List ℕ)
    (coords : List ℚ) (offset : Option (List ℚ)) : Option (List (List ℚ × ℚ)) :=
  let atc := texelCoordsFromNormalized isCube mipLevelSize coords offset
  match effectiveFilter builtin samplerMinFilter with
  | .linear => linearSampleList isCube (mipLevelSize.getD 0 0) coords atc
  | .nearest => some (nearestSampleList quantizeToF32 atc)

/-- Fetch one sample of the sampled branch: wrap the coordinate (cube-face
wrap for cube views, address modes otherwise), load the texel, and apply the
comparison rule. `wrapCube` stands for
`wrapFaceCoordToCubeFaceAtEdgeBoundaries(mipLevelSize[0], ·)` and `load` for
the branch's `load` closure (floor the coordinate, add the clamped array
offset, read the `TexelView`); both consume data outside this module, so they
are function inputs. -/
def sampleTexelRGBA (wrapCube : List ℚ → List ℚ) (load : List ℚ → Texel)
    (addressMode : List GPUAddressMode) (isCube : Bool) (mipLevelSize : List ℕ)
    (builtin : TextureBuiltin) (compare : GPUCompareFunction) (depthRef : ℚ)
    (sampleAt : List ℚ) : Texel :=
  let c :=
    if isCube then wrapCube sampleAt
    else applyAddressModesToCoords addressMode (mipLevelSize.map (Nat.cast : ℕ → ℚ)) sampleAt
  applyCompare builtin compare depthRef (load c)

/-- The sampled branch of `softwareTextureReadMipLevel` (the `textureSample*`
and `textureGather*` cases): build the sample list, fetch each sample, and
either distribute the four samples over the output components (gather) or
weight-sum them over the component order and convert to the result format.
At a cube corner the sample construction signals untestable (`none`), a
signal distinct from a failed comparison (comparison mismatches are returned
as diagnostic values by `checkCallResults`, never thrown). -/
def softwareTextureReadMipLevelSampled (wrapCube : List ℚ → List ℚ)
    (quantizeToF32 : ℚ → ℚ) (load : List ℚ → Texel)
    (componentOrder : List TexelComponent) (builtin : TextureBuiltin)
    (compare : GPUCompareFunction) (depthRef : ℚ) (component : Option ℕ)
    (samplerMinFilter : Option FilterMode) (addressMode : List GPUAddressMode)
    (isCube : Bool) (mipLevelSize : List ℕ) (coords : List ℚ)
    (offset : Option (List ℚ)) : Option Texel :=
  match sampleList quantizeToF32 builtin samplerMinFilter isCube mipLevelSize coords offset with
  | none => none
  | some samples =>
    if isBuiltinGather builtin then
      let comp := kRGBAComponents.getD (component.getD 0) .R
      let rgbaOf := fun (s : List ℚ × ℚ) =>
        convertPerTexelComponentToResultFormat componentOrder
          (sampleTexelRGBA wrapCube load addressMode isCube mipLevelSize builtin
            compare depthRef s.1)
      some (fun c2 =>
        if c2 = .R then rgbaOf (samples.getD 0 ([], 0)) comp
        else if c2 = .G then rgbaOf (samples.getD 1 ([], 0)) comp
        else if c2 = .B then rgbaOf (samples.getD 2 ([], 0)) comp
        else if c2 = .A then rgbaOf (samples.getD 3 ([], 0)) comp
        else 0)
    else
      some (convertPerTexelComponentToResultFormat componentOrder
        (fun c => (samples.map (fun s =>
          sampleTexelRGBA wrapCube load addressMode isCube mipLevelSize builtin
            compare depthRef s.1 c * s.2)).sum))

/-- The mip blend of `softwareTextureReadLevel` with `mipmapFilter: 'linear'`:
`out[c] = t0[c] * (1 - mix) + t1[c] * mix` over the RGBA components, where
`mix` is the calibrated weight for the clamped mip level. -/
def blendMipLevels (t0 t1 : Texel) (mix : ℚ) : Texel :=
  fun c => t0 c * (1 - mix) + t1 c * mix

/-! ### Helper lemmas -/

lemma dotProduct_self_eq_sum_sq (v : List ℚ) :
    dotProduct v v = (v.map (fun x => x ^ 2)).sum := by
  induction v with
  | nil => simp [dotProduct]
  | cons a as ih =>
    simp only [dotProduct, List.zipWith_cons_cons, List.map_cons, List.sum_cons] at *
    rw [ih, sq]

lemma applyAddressModeToCoord_of_inBounds (mode : GPUAddressMode) (s : ℕ) (v : ℤ)
    (h0 : 0 ≤ v) (h1 : v < s) :
    applyAddressModeToCoord mode (s : ℚ) (v : ℚ) = (v : ℚ) := by
  have hs : (0 : ℚ) < s := by
    have : 0 < (s : ℤ) := lt_of_le_of_lt h0 h1
    exact_mod_cast this
  have hv0 : (0 : ℚ) ≤ (v : ℚ) := by exact_mod_cast h0
  have hfloor : ⌊(v : ℚ) / (s : ℚ)⌋ = 0 := by
    rw [Int.floor_eq_zero_iff, Set.mem_Ico]
    exact ⟨div_nonneg hv0 hs.le, (div_lt_one hs).mpr (by exact_mod_cast h1)⟩
  cases mode with
  | clampToEdge =>
    have hle : (v : ℚ) ≤ (s : ℚ) - 1 := by
      have : v + 1 ≤ (s : ℤ) := h1
      have : ((v : ℚ)) + 1 ≤ (s : ℚ) := by exact_mod_cast this
      linarith
    simp only [applyAddressModeToCoord, clamp]
    rw [max_eq_right hv0, min_eq_right hle]
  | repeatMode =>
    simp only [applyAddressModeToCoord, hfloor]
    ring
  | mirrorRepeat =>
    simp only [applyAddressModeToCoord, hfloor]
    norm_num

/-- C9: for all three addressing modes, a texel coordinate already inside
`[0, size)` on each axis passes through `applyAddressModesToCoords`
unchanged. -/
theorem applyAddressModesToCoords_inBounds_id (modes : List GPUAddressMode)
    (sizes : List ℕ) (coords : List ℤ)
    (h : List.Forall₂ (fun (v : ℤ) (s : ℕ) => 0 ≤ v ∧ v < s) coords sizes)
    (hm : modes.length = coords.length) :
    applyAddressModesToCoords modes (sizes.map (Nat.cast : ℕ → ℚ))
      (coords.map (Int.cast : ℤ → ℚ)) = coords.map (Int.cast : ℤ → ℚ) := by
  induction h generalizing modes with
  | nil =>
    cases modes with
    | nil => rfl
    | cons m ms => simp at hm
  | @cons v s vs ss hvs htail ih =>
    cases modes with
    | nil => simp at hm
    | cons m ms =>
      simp only [List.map_cons, applyAddressModesToCoords]
      rw [applyAddressModeToCoord_of_inBounds m s v hvs.1 hvs.2,
        ih ms (by simpa using hm)]

/-- Witness for C9 at a concrete in-bounds coordinate, one axis per mode. -/
theorem applyAddressModesToCoords_inBounds_id_witness :
    applyAddressModesToCoords
      [GPUAddressMode.clampToEdge, GPUAddressMode.repeatMode, GPUAddressMode.mirrorRepeat]
      (([4, 7, 5] : List ℕ).map (Nat.cast : ℕ → ℚ))
      (([0, 6, 2] : List ℤ).map (Int.cast : ℤ → ℚ)) =
      ([0, 6, 2] : List ℤ).map (Int.cast : ℤ → ℚ) := by
  apply applyAddressModesToCoords_inBounds_id
  · refine List.Forall₂.cons (by omega) ?_
    refine List.Forall₂.cons (by omega) ?_
    exact List.Forall₂.cons (by omega) List.Forall₂.nil
  · rfl

/-- C2 (code bug): the integer backbone of a 65-entry curve that starts at 0,
ends at 1, has 65 distinct values, and is not monotonic non-decreasing. -/
def badCalibrationNats : List ℕ :=
  [0, 5, 3] ++ (List.range 61).map (fun i => i + 10) ++ [1]

/-- C2 (code bug): a non-monotonic 65-entry weight array that `validateWeights`
accepts — it starts at 0, ends at 1 and has 65 distinct values, and the
function checks nothing else, although its own doc comment says it
"validates the weights go from 0 to 1 in increasing order". -/
def badCalibrationWeights : List ℚ :=
  badCalibrationNats.map (Nat.cast : ℕ → ℚ)

/-- C2: the calibration validator does not enforce monotonicity: no assertion
of `validateWeights` fires on `badCalibrationWeights` even though that curve
is not non-decreasing (entry 1 is `5`, entry 2 is `3`). -/
theorem validateWeights_accepts_nonmonotonic :
    validateWeights badCalibrationWeights = true ∧
    badCalibrationWeights.length = 65 ∧
    badCalibrationWeights.get? 1 = some 5 ∧
    badCalibrationWeights.get? 2 = some 3 ∧
    ¬ ((5 : ℚ) ≤ 3) := by
  have hlen : badCalibrationWeights.length = 65 := by
    simp only [badCalibrationWeights, List.length_map]
    decide
  have hnodup : badCalibrationWeights.Nodup := by
    refine List.Nodup.map (fun a b hab => ?_) (by decide)
    exact_mod_cast hab
  refine ⟨?_, hlen, ?_, ?_, by norm_num⟩
  · simp only [validateWeights, Bool.and_eq_true, decide_eq_true_eq]
    refine ⟨⟨?_, ?_⟩, ?_⟩
    · rw [badCalibrationWeights, List.get?_map,
        show badCalibrationNats.get? 0 = some 0 from by decide]
      simp
    · rw [badCalibrationWeights, List.get?_map,
        show badCalibrationNats.get? kMipLevelWeightSteps = some 1 from by decide]
      simp
    · rw [List.Nodup.dedup hnodup, hlen]
      decide
  · rw [badCalibrationWeights, List.get?_map,
      show badCalibrationNats.get? 1 = some 5 from by decide]
    simp
  · rw [badCalibrationWeights, List.get?_map,
      show badCalibrationNats.get? 2 = some 3 from by decide]
    simp

/-- C3: the effective bias of `softwareTextureReadGrad` is the raw bias
clamped to `[-16.0, 15.99]` — below-range inputs become exactly `-16`,
above-range inputs become exactly `15.99`, in-range inputs pass through —
and it is this value that is added to the derived mip level (gradient path
before the level clamp, explicit-level path directly). -/
theorem effectiveBias_clamped (b : ℚ) :
    (b < -16 → effectiveBias (some b) = -16) ∧
    (b > 1599/100 → effectiveBias (some b) = 1599/100) ∧
    (-16 ≤ b → b ≤ 1599/100 → effectiveBias (some b) = b) ∧
    (∀ g mlc, softwareTextureReadGradLevelArg true g none (some b) mlc =
      clamp (g + effectiveBias (some b)) 0 (mlc - 1)) ∧
    (∀ m mlc, softwareTextureReadGradLevelArg false 0 (some m) (some b) mlc =
      m + effectiveBias (some b)) := by
  refine ⟨?_, ?_, ?_, fun g mlc => rfl, fun m mlc => rfl⟩
  · intro h
    simp only [effectiveBias, clamp]
    rw [max_eq_left h.le, min_eq_right (by norm_num)]
  · intro h
    simp only [effectiveBias, clamp]
    rw [max_eq_right (by linarith), min_eq_left h.le]
  · intro h1 h2
    simp only [effectiveBias, clamp]
    rw [max_eq_right h1, min_eq_right h2]

/-- Witness for C3 at concrete biases `-20`, `16`, `3`. -/
theorem effectiveBias_clamped_witness :
    effectiveBias (some (-20)) = -16 ∧
    effectiveBias (some 16) = 1599/100 ∧
    effectiveBias (some 3) = 3 :=
  ⟨(effectiveBias_clamped (-20)).1 (by norm_num),
   (effectiveBias_clamped 16).2.1 (by norm_num),
   (effectiveBias_clamped 3).2.2.1 (by norm_num) (by norm_num)⟩

/-- C4: the oracle's gradient-derived mip level is half the base-2 logarithm
of the larger of the squared lengths of the two gradient vectors after
scaling each axis by the texture size for that axis. -/
theorem computeMipLevelFromGradients_eq_half_log2_max_sq_length
    (ddx ddy textureSize : List ℚ) :
    computeMipLevelFromGradients ddx ddy textureSize =
      (1/2 : ℝ) * Real.logb 2
        ((max (((scaleByTextureSize ddx textureSize).map (fun x => x ^ 2)).sum)
              (((scaleByTextureSize ddy textureSize).map (fun x => x ^ 2)).sum) : ℚ) : ℝ) := by
  simp only [computeMipLevelFromGradients, computeMipLevelDeltaMax,
    dotProduct_self_eq_sum_sq]

/-- C10: the acceptance threshold of `checkCallResults` is the per-format
fractional tolerance, loosened to `tolerance * (2 + bias - 12)` exactly when
the call carries a bias of at least 12; a smaller or absent bias leaves the
tolerance unchanged; and with a linear filter the base tolerance is the
format's tolerance. -/
theorem callSpecificMaxFractionalDiff_spec (b tol : ℚ) (format : String) :
    (b ≥ 12 → callSpecificMaxFractionalDiff (some b) tol = tol * (2 + b - 12)) ∧
    (b < 12 → callSpecificMaxFractionalDiff (some b) tol = tol) ∧
    callSpecificMaxFractionalDiff none tol = tol ∧
    (∀ magLinear mipLinear, baseMaxFractionalDiff true magLinear mipLinear format =
      getMaxFractionalDiffForTextureFormat format) := by
  refine ⟨?_, ?_, rfl, fun magLinear mipLinear => rfl⟩
  · intro h
    simp only [callSpecificMaxFractionalDiff, if_pos h]
  · intro h
    simp only [callSpecificMaxFractionalDiff, if_neg (not_le.mpr h)]

/-- Witness for C10 at concrete biases `14` and `3` with the `rgba8unorm`
tolerance. -/
theorem callSpecificMaxFractionalDiff_spec_witness :
    callSpecificMaxFractionalDiff (some 14) (7/255) = 7/255 * (2 + 14 - 12) ∧
    callSpecificMaxFractionalDiff (some 3) (7/255) = 7/255 ∧
    callSpecificMaxFractionalDiff none (7/255) = 7/255 :=
  ⟨(callSpecificMaxFractionalDiff_spec 14 (7/255) "rgba8unorm").1 (by norm_num),
   (callSpecificMaxFractionalDiff_spec 3 (7/255) "rgba8unorm").2.1 (by norm_num),
   (callSpecificMaxFractionalDiff_spec 3 (7/255) "rgba8unorm").2.2.1⟩

/-- C6: the hybrid comparison rule — `texelsApproximatelyEqual` accepts a
got/expected pair exactly when every checked component is within the
format-dependent fractional tolerance in absolute difference or within 3 ULP
in the format's own bit encoding; and the fractional tolerance constants are
`7/255` for 8-bit unorm formats, `7.9/128` for 8-bit snorm formats, `44` for
float formats, `156.249` for unsigned-float formats, and `0` for integer
formats. -/
theorem texelsApproximatelyEqual_spec :
    (∀ (u : Texel → Texel) (ds : Bool) (got expect : Texel) (tol : ℚ),
      texelsApproximatelyEqual u ds got expect tol = true ↔
        ∀ c ∈ checkedComponents ds,
          |got c - expect c| ≤ tol ∨ |u got c - u expect c| ≤ 3) ∧
    getMaxFractionalDiffForTextureFormat "r8unorm" = 7/255 ∧
    getMaxFractionalDiffForTextureFormat "rg8unorm" = 7/255 ∧
    getMaxFractionalDiffForTextureFormat "rgba8unorm" = 7/255 ∧
    getMaxFractionalDiffForTextureFormat "bgra8unorm" = 7/255 ∧
    getMaxFractionalDiffForTextureFormat "rgba8unorm-srgb" = 7/255 ∧
    getMaxFractionalDiffForTextureFormat "r8snorm" = 79/1280 ∧
    getMaxFractionalDiffForTextureFormat "rg8snorm" = 79/1280 ∧
    getMaxFractionalDiffForTextureFormat "rgba8snorm" = 79/1280 ∧
    getMaxFractionalDiffForTextureFormat "r16float" = 44 ∧
    getMaxFractionalDiffForTextureFormat "r32float" = 44 ∧
    getMaxFractionalDiffForTextureFormat "rgba32float" = 44 ∧
    getMaxFractionalDiffForTextureFormat "rg11b10ufloat" = 156249/1000 ∧
    getMaxFractionalDiffForTextureFormat "rgb9e5ufloat" = 156249/1000 ∧
    getMaxFractionalDiffForTextureFormat "r32uint" = 0 ∧
    getMaxFractionalDiffForTextureFormat "rgba8sint" = 0 ∧
    getMaxFractionalDiffForTextureFormat "rgba32uint" = 0 := by
  refine ⟨?_, rfl, rfl, rfl, rfl, rfl, rfl, rfl, rfl, rfl, rfl, rfl, rfl, rfl,
    rfl, rfl, rfl⟩
  intro u ds got expect tol
  simp only [texelsApproximatelyEqual, List.all_eq_true, Bool.not_eq_true',
    Bool.and_eq_false_iff, decide_eq_false_iff_not, not_lt]
  constructor
  · intro h c hc
    rcases h c hc with h1 | h1
    · exact Or.inr h1
    · exact Or.inl h1
  · intro h c hc
    rcases h c hc with h1 | h1
    · exact Or.inr h1
    · exact Or.inl h1

lemma oobRangeCheck_eq_true_iff (o : Option ℚ) (limit : ℚ) :
    oobRangeCheck o limit = true ↔ ∃ v, o = some v ∧ (v < 0 ∨ limit ≤ v) := by
  cases o <;> simp [oobRangeCheck, ge_iff_le]

lemma coordsOutOfRange_eq_true_iff (l : List (ℚ × ℚ)) :
    (l.any (fun p => decide (p.1 < 0) || decide (p.1 ≥ p.2)) = true) ↔
    ∃ p ∈ l, p.1 < 0 ∨ p.2 ≤ p.1 := by
  simp [List.any_eq_true, ge_iff_le]

lemma sentinel_eq_true_iff (d : Bool) (got : Texel) :
    ((if d then decide (got .R = 0)
      else decide (got .R = 0) && decide (got .B = 0) && decide (got .G = 0)
        && (decide (got .A = 0) || decide (got .A = 1))) = true) ↔
    ((d = true ∧ got .R = 0) ∨
     (d = false ∧ got .R = 0 ∧ got .G = 0 ∧ got .B = 0 ∧ (got .A = 0 ∨ got .A = 1))) := by
  cases d with
  | false => simp; tauto
  | true => simp

/-- C5: for a sampler-less call, `isOutOfBoundsCall` holds exactly when some
coordinate, the mip level, the array index or the sample index is outside its
range, and for such a call the harness accepts a GPU-returned value exactly
when it is the all-zero sentinel (`R = 0` for depth formats; `R = G = B = 0`
with `A ∈ {0, 1}` otherwise) or it matches — under the harness's approximate
texel comparison — some texel value present anywhere in the texture's mip
chain; every other value is rejected. -/
theorem okBecauseOutOfBounds_acceptance_spec (mipLevelCount : ℚ) (sizeList : List ℚ)
    (arrayLayerCount sampleCount : ℚ) (tex : SoftwareTextureModel) (call : OobCall)
    (gotRGBA : Texel) (tol : ℚ) :
    (isOutOfBoundsCall mipLevelCount sizeList arrayLayerCount sampleCount call = true ↔
      (∃ m, call.mipLevel = some m ∧ (m < 0 ∨ mipLevelCount ≤ m)) ∨
      (∃ p ∈ List.zip call.coords sizeList, p.1 < 0 ∨ p.2 ≤ p.1) ∨
      (∃ a, call.arrayIndex = some a ∧ (a < 0 ∨ arrayLayerCount ≤ a)) ∨
      (∃ s, call.sampleIndex = some s ∧ (s < 0 ∨ sampleCount ≤ s))) ∧
    (isOutOfBoundsCall mipLevelCount sizeList arrayLayerCount sampleCount call = true →
      (okBecauseOutOfBounds mipLevelCount sizeList arrayLayerCount sampleCount tex call
          gotRGBA tol = true ↔
        ((tex.formatIsDepth = true ∧ gotRGBA .R = 0) ∨
         (tex.formatIsDepth = false ∧ gotRGBA .R = 0 ∧ gotRGBA .G = 0 ∧ gotRGBA .B = 0 ∧
           (gotRGBA .A = 0 ∨ gotRGBA .A = 1)) ∨
         ∃ mip ∈ tex.texels, ∃ z < mip.sizeZ, ∃ y < mip.sizeY, ∃ x < mip.sizeX,
           ∃ s < tex.sampleCount,
             texelsApproximatelyEqual tex.ulpFromZeroRGBA tex.formatIsDepthOrStencil gotRGBA
               (convertPerTexelComponentToResultFormat tex.componentOrder (mip.color x y z s))
               tol = true))) := by
  constructor
  · rw [isOutOfBoundsCall]
    simp only [Bool.or_eq_true]
    rw [or_assoc, or_assoc]
    exact or_congr (oobRangeCheck_eq_true_iff _ _)
      (or_congr (coordsOutOfRange_eq_true_iff _)
        (or_congr (oobRangeCheck_eq_true_iff _ _) (oobRangeCheck_eq_true_iff _ _)))
  · intro hoob
    rw [okBecauseOutOfBounds, hoob]
    simp only [Bool.not_true, Bool.false_eq_true, if_false]
    rw [isValidOutOfBoundsValue, Bool.or_eq_true, sentinel_eq_true_iff]
    simp only [List.any_eq_true, List.mem_range]
    rw [or_assoc]

/-- The concrete texture of the C5 witness: one 1x1x1 mip level holding the
constant texel value 1/2. -/
def oobWitnessTex : SoftwareTextureModel where
  texels := [⟨1, 1, 1, fun _ _ _ _ => fun _ => 1/2⟩]
  formatIsDepth := false
  formatIsDepthOrStencil := false
  sampleCount := 1
  componentOrder := [.R, .G, .B, .A]
  ulpFromZeroRGBA := fun t => t

/-- The concrete call of the C5 witness: coordinate 5 against size 4. -/
def oobWitnessCall : OobCall := ⟨[5], none, none, none⟩

/-- Witness for C5: the call loading coordinate 5 of a size-4 level is out of
bounds, and for it the acceptance test agrees with the sentinel-or-any-texel
disjunction. -/
theorem okBecauseOutOfBounds_acceptance_spec_witness :
    isOutOfBoundsCall 1 [4] 1 1 oobWitnessCall = true ∧
    (okBecauseOutOfBounds 1 [4] 1 1 oobWitnessTex oobWitnessCall (fun _ => 0) 0 = true ↔
      ((oobWitnessTex.formatIsDepth = true ∧ (fun _ : TexelComponent => (0 : ℚ)) .R = 0) ∨
       (oobWitnessTex.formatIsDepth = false ∧ (fun _ : TexelComponent => (0 : ℚ)) .R = 0 ∧
         (fun _ : TexelComponent => (0 : ℚ)) .G = 0 ∧
         (fun _ : TexelComponent => (0 : ℚ)) .B = 0 ∧
         ((fun _ : TexelComponent => (0 : ℚ)) .A = 0 ∨
           (fun _ : TexelComponent => (0 : ℚ)) .A = 1)) ∨
       ∃ mip ∈ oobWitnessTex.texels, ∃ z < mip.sizeZ, ∃ y < mip.sizeY, ∃ x < mip.sizeX,
         ∃ s < oobWitnessTex.sampleCount,
           texelsApproximatelyEqual oobWitnessTex.ulpFromZeroRGBA
             oobWitnessTex.formatIsDepthOrStencil (fun _ => 0)
             (convertPerTexelComponentToResultFormat oobWitnessTex.componentOrder
               (mip.color x y z s)) 0 = true)) := by
  have hoob : isOutOfBoundsCall 1 [4] 1 1 oobWitnessCall = true := by
    refine (okBecauseOutOfBounds_acceptance_spec 1 [4] 1 1 oobWitnessTex oobWitnessCall
      (fun _ => 0) 0).1.mpr (Or.inr (Or.inl ⟨(5, 4), ?_, Or.inr (by norm_num)⟩))
    show (5, 4) ∈ List.zip oobWitnessCall.coords [4]
    rw [show oobWitnessCall.coords = [5] from rfl]
    simp [List.zip]
  exact ⟨hoob,
    (okBecauseOutOfBounds_acceptance_spec 1 [4] 1 1 oobWitnessTex oobWitnessCall
      (fun _ => 0) 0).2 hoob⟩

/-! ### Helper lemmas for the sampled branch -/

lemma sampleTexelRGBA_always (wrapCube : List ℚ → List ℚ) (load : List ℚ → Texel)
    (addressMode : List GPUAddressMode) (isCube : Bool) (msz : List ℕ)
    (b : TextureBuiltin) (ref : ℚ) (sampleAt : List ℚ) (c : TexelComponent)
    (hb : isBuiltinComparison b = true) :
    sampleTexelRGBA wrapCube load addressMode isCube msz b .always ref sampleAt c = 1 := by
  simp [sampleTexelRGBA, applyCompare, hb, kSamplerFns]

lemma sampleTexelRGBA_never (wrapCube : List ℚ → List ℚ) (load : List ℚ → Texel)
    (addressMode : List GPUAddressMode) (isCube : Bool) (msz : List ℕ)
    (b : TextureBuiltin) (ref : ℚ) (sampleAt : List ℚ) (c : TexelComponent)
    (hb : isBuiltinComparison b = true) :
    sampleTexelRGBA wrapCube load addressMode isCube msz b .never ref sampleAt c = 0 := by
  simp [sampleTexelRGBA, applyCompare, hb, kSamplerFns]

lemma convert_depth_at_R (src : Texel) :
    convertPerTexelComponentToResultFormat [.Depth] src .R = src .Depth := rfl

lemma texelCoords_length (isCube : Bool) (msz : List ℕ) (coords : List ℚ)
    (offset : Option (List ℚ)) (hmsz : msz.length = 3) (hc3 : coords.length ≤ 3)
    (hoff : ∀ o, offset = some o → o.length = coords.length) :
    (texelCoordsFromNormalized isCube msz coords offset).length = coords.length := by
  cases offset with
  | none =>
    simp only [texelCoordsFromNormalized, List.length_zipWith]
    cases isCube <;> simp [hmsz] <;> omega
  | some o =>
    have ho := hoff o rfl
    simp only [texelCoordsFromNormalized, List.length_zipWith]
    cases isCube <;> simp [hmsz, ho] <;> omega

lemma sampleList_of_linear (q : ℚ → ℚ) (b : TextureBuiltin) (f : Option FilterMode)
    (isCube : Bool) (msz : List ℕ) (coords : List ℚ) (offset : Option (List ℚ))
    (hf : effectiveFilter b f = .linear) :
    sampleList q b f isCube msz coords offset =
      linearSampleList isCube (msz.getD 0 0) coords
        (texelCoordsFromNormalized isCube msz coords offset) := by
  simp only [sampleList, hf]

lemma linearSampleList_weights_sum_one (isCube : Bool) (s0 : ℕ)
    (coords atc : List ℚ) (L : List (List ℚ × ℚ))
    (hlen : atc.length = coords.length)
    (hc1 : 1 ≤ coords.length) (hc3 : coords.length ≤ 3)
    (hL : linearSampleList isCube s0 coords atc = some L) :
    (L.map (fun s => s.2)).sum = 1 := by
  have h123 : coords.length = 1 ∨ coords.length = 2 ∨ coords.length = 3 := by omega
  rcases h123 with h | h | h
  · obtain ⟨x, hx⟩ := List.length_eq_one.mp (hlen.trans h)
    subst hx
    simp only [linearSampleList, h, List.map_cons, List.map_nil, List.zipWith_cons_cons,
      List.zipWith_nil_right, Option.some.injEq] at hL
    rw [← hL]
    simp only [List.map_cons, List.map_nil, List.sum_cons, List.sum_nil,
      List.getD_cons_zero, List.getD_cons_succ]
    ring
  · obtain ⟨x, y, hxy⟩ := List.length_eq_two.mp (hlen.trans h)
    subst hxy
    simp only [linearSampleList, h, List.map_cons, List.map_nil, List.zipWith_cons_cons,
      List.zipWith_nil_right, Option.some.injEq] at hL
    rw [← hL]
    simp only [List.map_cons, List.map_nil, List.sum_cons, List.sum_nil,
      List.getD_cons_zero, List.getD_cons_succ]
    ring
  · obtain ⟨x, y, z, hxyz⟩ := List.length_eq_three.mp (hlen.trans h)
    subst hxyz
    cases isCube with
    | false =>
      simp only [linearSampleList, h, List.map_cons, List.map_nil, List.zipWith_cons_cons,
        List.zipWith_nil_right, Option.some.injEq, Bool.false_eq_true, if_false] at hL
      rw [← hL]
      simp only [List.map_cons, List.map_nil, List.sum_cons, List.sum_nil,
        List.getD_cons_zero, List.getD_cons_succ]
      ring
    | true =>
      simp only [linearSampleList, h, List.map_cons, List.map_nil, List.zipWith_cons_cons,
        List.zipWith_nil_right, if_true] at hL
      split at hL
      · exact absurd hL (by simp)
      · simp only [Option.some.injEq] at hL
        rw [← hL]
        simp only [List.map_cons, List.map_nil, List.sum_cons, List.sum_nil,
          List.getD_cons_zero, List.getD_cons_succ]
        ring

/-- C7: for comparison builtins the oracle replaces every fetched component
with the 0/1 outcome of the sampler's compare function against the depth
reference before weighting and blending; in particular, because the per-call
filter weights always sum to 1, with compare function `always` the oracle's
result (the `R` component carrying the converted depth value) is 1 for every
depth reference, texture content, filter mode and addressing behaviour, with
`never` it is 0, and the mip-level blend preserves both. -/
theorem comparison_sampling_spec :
    (∀ (b : TextureBuiltin) (cmp : GPUCompareFunction) (ref : ℚ) (src : Texel)
       (c : TexelComponent), isBuiltinComparison b = true →
      applyCompare b cmp ref src c = if kSamplerFns cmp ref (src c) then 1 else 0) ∧
    (∀ ref v, kSamplerFns .always ref v = true) ∧
    (∀ ref v, kSamplerFns .never ref v = false) ∧
    (∀ (wrapCube : List ℚ → List ℚ) (q : ℚ → ℚ) (load : List ℚ → Texel)
       (b : TextureBuiltin) (ref : ℚ) (component : Option ℕ) (f : Option FilterMode)
       (addressMode : List GPUAddressMode) (isCube : Bool) (msz : List ℕ)
       (coords : List ℚ) (offset : Option (List ℚ)) (out : Texel),
      isBuiltinComparison b = true →
      msz.length = 3 → 1 ≤ coords.length → coords.length ≤ 3 →
      (∀ o, offset = some o → o.length = coords.length) →
      (isBuiltinGather b = true → component = none) →
      softwareTextureReadMipLevelSampled wrapCube q load [.Depth] b .always ref component
        f addressMode isCube msz coords offset = some out →
      out .R = 1) ∧
    (∀ (wrapCube : List ℚ → List ℚ) (q : ℚ → ℚ) (load : List ℚ → Texel)
       (b : TextureBuiltin) (ref : ℚ) (component : Option ℕ) (f : Option FilterMode)
       (addressMode : List GPUAddressMode) (isCube : Bool) (msz : List ℕ)
       (coords : List ℚ) (offset : Option (List ℚ)) (out : Texel),
      isBuiltinComparison b = true →
      (isBuiltinGather b = true → component = none) →
      softwareTextureReadMipLevelSampled wrapCube q load [.Depth] b .never ref component
        f addressMode isCube msz coords offset = some out →
      out .R = 0) ∧
    (∀ (t0 t1 : Texel) (mix : ℚ), t0 .R = 1 → t1 .R = 1 →
      blendMipLevels t0 t1 mix .R = 1) ∧
    (∀ (t0 t1 : Texel) (mix : ℚ), t0 .R = 0 → t1 .R = 0 →
      blendMipLevels t0 t1 mix .R = 0) := by
  refine ⟨?_, fun ref v => rfl, fun ref v => rfl, ?_, ?_, ?_, ?_⟩
  · intro b cmp ref src c hb
    simp [applyCompare, hb]
  · intro wrapCube q load b ref component f addressMode isCube msz coords offset out
      hb hmsz hc1 hc3 hoff hcomp hout
    cases hSL : sampleList q b f isCube msz coords offset with
    | none =>
      rw [softwareTextureReadMipLevelSampled, hSL] at hout
      exact absurd hout (by simp)
    | some samples =>
      rw [softwareTextureReadMipLevelSampled, hSL] at hout
      cases hg : isBuiltinGather b with
      | true =>
        rw [hcomp hg] at hout
        simp only [hg, if_true, Option.some.injEq] at hout
        subst hout
        simp only [Option.getD_none, kRGBAComponents, List.getD_cons_zero, if_pos rfl]
        rw [convert_depth_at_R,
          sampleTexelRGBA_always _ _ _ _ _ _ _ _ _ hb]
        simp
      | false =>
        simp only [hg, Bool.false_eq_true, if_false, Option.some.injEq] at hout
        subst hout
        rw [convert_depth_at_R]
        have hmap : ∀ s ∈ samples,
            sampleTexelRGBA wrapCube load addressMode isCube msz b .always ref s.1
              .Depth * s.2 = s.2 := by
          intro s _
          rw [sampleTexelRGBA_always _ _ _ _ _ _ _ _ _ hb]
          ring
        rw [List.map_congr_left hmap]
        cases hf : effectiveFilter b f with
        | nearest =>
          simp only [sampleList, hf, Option.some.injEq] at hSL
          rw [← hSL]
          simp [nearestSampleList]
        | linear =>
          rw [sampleList_of_linear q b f isCube msz coords offset hf] at hSL
          exact linearSampleList_weights_sum_one isCube (msz.getD 0 0) coords _ samples
            (texelCoords_length isCube msz coords offset hmsz hc3 hoff) hc1 hc3 hSL
  · intro wrapCube q load b ref component f addressMode isCube msz coords offset out
      hb hcomp hout
    cases hSL : sampleList q b f isCube msz coords offset with
    | none =>
      rw [softwareTextureReadMipLevelSampled, hSL] at hout
      exact absurd hout (by simp)
    | some samples =>
      rw [softwareTextureReadMipLevelSampled, hSL] at hout
      cases hg : isBuiltinGather b with
      | true =>
        rw [hcomp hg] at hout
        simp only [hg, if_true, Option.some.injEq] at hout
        subst hout
        simp only [Option.getD_none, kRGBAComponents, List.getD_cons_zero, if_pos rfl]
        rw [convert_depth_at_R,
          sampleTexelRGBA_never _ _ _ _ _ _ _ _ _ hb]
        simp
      | false =>
        simp only [hg, Bool.false_eq_true, if_false, Option.some.injEq] at hout
        subst hout
        rw [convert_depth_at_R]
        have hmap : ∀ s ∈ samples,
            sampleTexelRGBA wrapCube load addressMode isCube msz b .never ref s.1
              .Depth * s.2 = 0 := by
          intro s _
          rw [sampleTexelRGBA_never _ _ _ _ _ _ _ _ _ hb]
          ring
        rw [List.map_congr_left hmap]
        simp
  · intro t0 t1 mix h0 h1
    simp only [blendMipLevels, h0, h1]
    ring
  · intro t0 t1 mix h0 h1
    simp only [blendMipLevels, h0, h1]
    ring

/-- Witness for C7: a nearest-filter `textureSampleCompare` with compare
function `always` against a constant-1/2 depth texture returns 1. -/
theorem comparison_sampling_spec_witness :
    (softwareTextureReadMipLevelSampled id id (fun _ _ => 1/2) [.Depth]
      .textureSampleCompare .always 0 none (some .nearest) [] false [4, 4, 1]
      [1/4, 1/4] none).map (fun t => t TexelComponent.R) = some 1 := by
  obtain ⟨out, hout⟩ : ∃ out, softwareTextureReadMipLevelSampled id id
      (fun _ _ => (1/2 : ℚ)) [.Depth] .textureSampleCompare .always 0 none
      (some .nearest) [] false [4, 4, 1] [1/4, 1/4] none = some out := ⟨_, rfl⟩
  rw [hout, Option.map_some']
  rw [comparison_sampling_spec.2.2.2.1 id id (fun _ _ => 1/2) .textureSampleCompare 0
    none (some .nearest) [] false [4, 4, 1] [1/4, 1/4] none out rfl rfl
    (by norm_num) (by norm_num) (fun o ho => by cases ho) (fun h => rfl) hout]

/-- C8: a cube-map linear-filter sample whose 2x2 footprint lies within half
a texel of a face edge in both `u` and `v` (`getUnusedCubeCornerSampleIndex`
non-negative) makes the oracle raise its explicit untestable signal instead
of returning a value: the sampled branch produces no result, for every
texture content, comparison mode and wrap behaviour. -/
theorem cubeCorner_untestable (wrapCube : List ℚ → List ℚ) (q : ℚ → ℚ)
    (load : List ℚ → Texel) (componentOrder : List TexelComponent)
    (b : TextureBuiltin) (cmp : GPUCompareFunction) (ref : ℚ) (component : Option ℕ)
    (f : Option FilterMode) (addressMode : List GPUAddressMode) (msz : List ℕ)
    (coords : List ℚ) (offset : Option (List ℚ))
    (hf : effectiveFilter b f = .linear) (hc : coords.length = 3)
    (hcorner : getUnusedCubeCornerSampleIndex ((msz.getD 0 0 : ℕ) : ℚ) coords ≥ 0) :
    softwareTextureReadMipLevelSampled wrapCube q load componentOrder b cmp ref component
      f addressMode true msz coords offset = none := by
  have hSL : sampleList q b f true msz coords offset = none := by
    rw [sampleList_of_linear q b f true msz coords offset hf]
    simp only [linearSampleList, hc, if_true]
    rw [if_pos hcorner]
  simp only [softwareTextureReadMipLevelSampled, hSL]

/-- Witness for C8: a linear-filter cube sample at the lower-left corner of a
4x4 face (normalized coordinate 1/16, texel-space 1/4, within half a texel of
both edges) produces no oracle value. -/
theorem cubeCorner_untestable_witness :
    softwareTextureReadMipLevelSampled id id (fun _ _ => 0) [.Depth] .textureSample
      .always 0 none (some .linear) [] true [4, 4, 1] [1/16, 1/16, 0] none = none := by
  apply cubeCorner_untestable
  · rfl
  · rfl
  · show getUnusedCubeCornerSampleIndex _ _ ≥ 0
    norm_num [getUnusedCubeCornerSampleIndex, List.getD_cons_zero, List.getD_cons_succ]

/-- C1 (counterexample to the claim as stated): for a 3D (non-cube) texture
the linear filter of the sampled branch produces 8 corner samples, not 4. -/
theorem linear_3d_sample_count_counterexample :
    (sampleList id .textureSample (some .linear) false [4, 4, 4] [2/8, 3/8, 5/8]
      none).map List.length = some 8 ∧ (8 : ℕ) ≠ 4 := by
  exact ⟨rfl, by decide⟩

/-- C1 (amended): with a linear effective filter the sampled branch computes
the texel-space sample point `at = coord * size - 1/2` (plus the whole-texel
offset), brackets it with the corner texels at `⌊at⌋` and `⌊at⌋ + 1` per axis
(the cube case does not advance the third axis), weights each corner by the
product of per-axis weights `Int.fract at` / `1 - Int.fract at`, producing
2 corners for a 1D texture, 4 for 2D, 8 for a 3D texture and 4 for a cube
texture (away from cube corners), and the oracle's result is the weighted sum
of the decoded corner values over the component order, converted to the
result format. -/
theorem linear_filter_corner_samples_spec :
    (∀ (q : ℚ → ℚ) (b : TextureBuiltin) (f : Option FilterMode) (isCube : Bool)
       (msz : List ℕ) (coords : List ℚ) (offset : Option (List ℚ)),
      effectiveFilter b f = .linear →
      sampleList q b f isCube msz coords offset =
        linearSampleList isCube (msz.getD 0 0) coords
          (texelCoordsFromNormalized isCube msz coords offset)) ∧
    (∀ (isCube : Bool) (s0 : ℕ) (a x : ℚ),
      linearSampleList isCube s0 [a] [x] =
        some [([(⌊x⌋ : ℚ)], 1 - Int.fract x), ([(⌊x⌋ : ℚ) + 1], Int.fract x)]) ∧
    (∀ (isCube : Bool) (s0 : ℕ) (a b2 x y : ℚ),
      linearSampleList isCube s0 [a, b2] [x, y] =
        some [
          ([(⌊x⌋ : ℚ), (⌊y⌋ : ℚ) + 1], (1 - Int.fract x) * Int.fract y),
          ([(⌊x⌋ : ℚ) + 1, (⌊y⌋ : ℚ) + 1], Int.fract x * Int.fract y),
          ([(⌊x⌋ : ℚ) + 1, (⌊y⌋ : ℚ)], Int.fract x * (1 - Int.fract y)),
          ([(⌊x⌋ : ℚ), (⌊y⌋ : ℚ)], (1 - Int.fract x) * (1 - Int.fract y))]) ∧
    (∀ (s0 : ℕ) (a b2 c3 x y z : ℚ),
      linearSampleList false s0 [a, b2, c3] [x, y, z] =
        some [
          ([(⌊x⌋ : ℚ), (⌊y⌋ : ℚ), (⌊z⌋ : ℚ)],
            (1 - Int.fract x) * (1 - Int.fract y) * (1 - Int.fract z)),
          ([(⌊x⌋ : ℚ) + 1, (⌊y⌋ : ℚ), (⌊z⌋ : ℚ)],
            Int.fract x * (1 - Int.fract y) * (1 - Int.fract z)),
          ([(⌊x⌋ : ℚ), (⌊y⌋ : ℚ) + 1, (⌊z⌋ : ℚ)],
            (1 - Int.fract x) * Int.fract y * (1 - Int.fract z)),
          ([(⌊x⌋ : ℚ) + 1, (⌊y⌋ : ℚ) + 1, (⌊z⌋ : ℚ)],
            Int.fract x * Int.fract y * (1 - Int.fract z)),
          ([(⌊x⌋ : ℚ), (⌊y⌋ : ℚ), (⌊z⌋ : ℚ) + 1],
            (1 - Int.fract x) * (1 - Int.fract y) * Int.fract z),
          ([(⌊x⌋ : ℚ) + 1, (⌊y⌋ : ℚ), (⌊z⌋ : ℚ) + 1],
            Int.fract x * (1 - Int.fract y) * Int.fract z),
          ([(⌊x⌋ : ℚ), (⌊y⌋ : ℚ) + 1, (⌊z⌋ : ℚ) + 1],
            (1 - Int.fract x) * Int.fract y * Int.fract z),
          ([(⌊x⌋ : ℚ) + 1, (⌊y⌋ : ℚ) + 1, (⌊z⌋ : ℚ) + 1],
            Int.fract x * Int.fract y * Int.fract z)]) ∧
    (∀ (s0 : ℕ) (a b2 c3 x y z : ℚ),
      getUnusedCubeCornerSampleIndex (s0 : ℚ) [a, b2, c3] < 0 →
      linearSampleList true s0 [a, b2, c3] [x, y, z] =
        some [
          ([(⌊x⌋ : ℚ), (⌊y⌋ : ℚ) + 1, (⌊z⌋ : ℚ)], (1 - Int.fract x) * Int.fract y),
          ([(⌊x⌋ : ℚ) + 1, (⌊y⌋ : ℚ) + 1, (⌊z⌋ : ℚ)], Int.fract x * Int.fract y),
          ([(⌊x⌋ : ℚ) + 1, (⌊y⌋ : ℚ), (⌊z⌋ : ℚ)], Int.fract x * (1 - Int.fract y)),
          ([(⌊x⌋ : ℚ), (⌊y⌋ : ℚ), (⌊z⌋ : ℚ)],
            (1 - Int.fract x) * (1 - Int.fract y))]) ∧
    (∀ (wrapCube : List ℚ → List ℚ) (q : ℚ → ℚ) (load : List ℚ → Texel)
       (componentOrder : List TexelComponent) (b : TextureBuiltin)
       (cmp : GPUCompareFunction) (ref : ℚ) (component : Option ℕ)
       (f : Option FilterMode) (addressMode : List GPUAddressMode) (isCube : Bool)
       (msz : List ℕ) (coords : List ℚ) (offset : Option (List ℚ))
       (L : List (List ℚ × ℚ)),
      isBuiltinGather b = false →
      sampleList q b f isCube msz coords offset = some L →
      softwareTextureReadMipLevelSampled wrapCube q load componentOrder b cmp ref
        component f addressMode isCube msz coords offset =
        some (convertPerTexelComponentToResultFormat componentOrder
          (fun c => (L.map (fun s =>
            sampleTexelRGBA wrapCube load addressMode isCube msz b cmp ref s.1 c *
              s.2)).sum))) := by
  refine ⟨?_, ?_, ?_, ?_, ?_, ?_⟩
  · intro q b f isCube msz coords offset hf
    exact sampleList_of_linear q b f isCube msz coords offset hf
  · intro isCube s0 a x
    simp only [linearSampleList, List.length_cons, List.length_nil, Nat.zero_add,
      List.map_cons, List.map_nil, List.zipWith_cons_cons, List.zipWith_nil_right,
      List.mapIdx_cons, List.mapIdx_nil, List.getD_cons_zero, List.getD_cons_succ,
      Int.fract]
    all_goals norm_num
  · intro isCube s0 a b2 x y
    simp only [linearSampleList, List.length_cons, List.length_nil, Nat.zero_add,
      List.map_cons, List.map_nil, List.zipWith_cons_cons, List.zipWith_nil_right,
      List.mapIdx_cons, List.mapIdx_nil, List.getD_cons_zero, List.getD_cons_succ,
      Int.fract]
    all_goals norm_num
  · intro s0 a b2 c3 x y z
    simp only [linearSampleList, List.length_cons, List.length_nil, Nat.zero_add,
      List.map_cons, List.map_nil, List.zipWith_cons_cons, List.zipWith_nil_right,
      List.mapIdx_cons, List.mapIdx_nil, List.getD_cons_zero, List.getD_cons_succ,
      Int.fract, Bool.false_eq_true, if_false]
  · intro s0 a b2 c3 x y z hcor
    simp only [linearSampleList, List.length_cons, List.length_nil, Nat.zero_add,
      if_true]
    rw [if_neg (by exact not_le.mpr hcor)]
    simp only [List.map_cons, List.map_nil, List.zipWith_cons_cons,
      List.zipWith_nil_right, List.mapIdx_cons, List.mapIdx_nil, List.getD_cons_zero,
      List.getD_cons_succ, Int.fract]
    all_goals norm_num
  · intro wrapCube q load componentOrder b cmp ref component f addressMode isCube msz
      coords offset L hg hSL
    rw [softwareTextureReadMipLevelSampled, hSL]
    simp [hg]

/-- Witness for C1: the 2D corner list at a concrete sample point, reached
through `sampleList` with a linear filter, and a concrete cube sample away
from any corner. -/
theorem linear_filter_corner_samples_spec_witness :
    (sampleList id .textureSample (some .linear) false [4, 4, 4] [1/8, 5/8] none =
      linearSampleList false 4 [1/8, 5/8]
        (texelCoordsFromNormalized false [4, 4, 4] [1/8, 5/8] none)) ∧
    (linearSampleList true 4 [1/2, 1/2, 0] [(3 : ℚ)/2, 3/2, 0] =
      some [
        ([(⌊(3 : ℚ)/2⌋ : ℚ), (⌊(3 : ℚ)/2⌋ : ℚ) + 1, (⌊(0 : ℚ)⌋ : ℚ)],
          (1 - Int.fract ((3 : ℚ)/2)) * Int.fract ((3 : ℚ)/2)),
        ([(⌊(3 : ℚ)/2⌋ : ℚ) + 1, (⌊(3 : ℚ)/2⌋ : ℚ) + 1, (⌊(0 : ℚ)⌋ : ℚ)],
          Int.fract ((3 : ℚ)/2) * Int.fract ((3 : ℚ)/2)),
        ([(⌊(3 : ℚ)/2⌋ : ℚ) + 1, (⌊(3 : ℚ)/2⌋ : ℚ), (⌊(0 : ℚ)⌋ : ℚ)],
          Int.fract ((3 : ℚ)/2) * (1 - Int.fract ((3 : ℚ)/2))),
        ([(⌊(3 : ℚ)/2⌋ : ℚ), (⌊(3 : ℚ)/2⌋ : ℚ), (⌊(0 : ℚ)⌋ : ℚ)],
          (1 - Int.fract ((3 : ℚ)/2)) * (1 - Int.fract ((3 : ℚ)/2)))]) :=
  ⟨linear_filter_corner_samples_spec.1 id .textureSample (some .linear) false
      [4, 4, 4] [1/8, 5/8] none rfl,
   linear_filter_corner_samples_spec.2.2.2.2.1 4 (1/2) (1/2) 0 ((3 : ℚ)/2) ((3 : ℚ)/2) 0
     (by norm_num [getUnusedCubeCornerSampleIndex, List.getD_cons_zero,
       List.getD_cons_succ])⟩

end CTS
